import Mathlib

/-!
# aws-secret-env: the HTTP responder of `src/server.js`

A shallow embedding of `server.js`.  The module body (the constants `PORT`,
`APIKEY`, `PASSWORD`, evaluated once when the module is loaded) becomes
`loadConfig`; the callback given to `http.createServer` becomes `handler`; the
callback given to `server.listen` becomes `banner`.

`process.env` is a finite map from names to strings; it is modelled as a
function `String → Option String` (`none` is JavaScript's `undefined`).  It
is the environment as left by `require('dotenv').config()`.  The handler reads
`process.env` again at every request, so the environment of the moment of the
request is an argument of `handler`, separate from the constants captured at
startup.

The values of environment variables are well-formed Unicode strings, so a
JavaScript string is a Lean `String` here and `JSON.stringify` needs no case
for lone surrogates.
-/

set_option autoImplicit false

namespace AwsSecretEnv

/-! ## JavaScript values and `JSON.stringify` -/

/-- The JavaScript values the handler gives to `JSON.stringify`: strings,
array literals and object literals (own enumerable string keys, in creation
order). -/
inductive JSValue where
  | str (s : String)
  | arr (items : List JSValue)
  | obj (fields : List (String × JSValue))

/-- Property lookup `v[k]` on an object literal (`none` is `undefined`). -/
def JSValue.get? : JSValue → String → Option JSValue
  | .obj fields, k => (fields.find? (fun kv => kv.1 == k)).map Prod.snd
  | _, _ => none

/-- The names of the own properties of an object literal, in order. -/
def JSValue.keys : JSValue → List String
  | .obj fields => fields.map Prod.fst
  | _ => []

/-- The string held by a string value. -/
def JSValue.asString? : JSValue → Option String
  | .str s => some s
  | _ => none

/-- A lowercase hexadecimal digit. -/
def hexDigit (n : Nat) : Char :=
  if n < 10 then Char.ofNat (48 + n) else Char.ofNat (87 + n)

/-- ECMAScript `UnicodeEscape`: a backslash, `u` and four lowercase hex digits. -/
def UnicodeEscape (c : Char) : String :=
  "\\u" ++ String.mk [hexDigit (c.toNat / 4096 % 16), hexDigit (c.toNat / 256 % 16),
    hexDigit (c.toNat / 16 % 16), hexDigit (c.toNat % 16)]

/-- One code point of ECMAScript `QuoteJSONString`. -/
def quoteCodePoint (c : Char) : String :=
  if c.toNat = 8 then "\\b"
  else if c.toNat = 9 then "\\t"
  else if c.toNat = 10 then "\\n"
  else if c.toNat = 12 then "\\f"
  else if c.toNat = 13 then "\\r"
  else if c.toNat = 34 then "\\\""
  else if c.toNat = 92 then "\\\\"
  else if c.toNat < 32 then UnicodeEscape c
  else String.singleton c

/-- ECMAScript `QuoteJSONString`. -/
def QuoteJSONString (s : String) : String :=
  "\"" ++ String.join (s.toList.map quoteCodePoint) ++ "\""

/-- Joins the serialised members with a separator. -/
def joinWith (sep : String) : List String → String
  | [] => ""
  | [x] => x
  | x :: y :: rest => x ++ sep ++ joinWith sep (y :: rest)

mutual
/-- ECMAScript `SerializeJSONProperty`, with `SerializeJSONArray` and
`SerializeJSONObject` inlined; `indent` is the indentation of the enclosing
level (the `stepback`). -/
def SerializeJSONProperty (gap indent : String) : JSValue → String
  | .str s => QuoteJSONString s
  | .arr items =>
      if items.isEmpty then "[]"
      else if gap = "" then
        "[" ++ joinWith "," (serializeElements gap (indent ++ gap) items) ++ "]"
      else
        "[\n" ++ (indent ++ gap) ++
          joinWith (",\n" ++ (indent ++ gap)) (serializeElements gap (indent ++ gap) items) ++
          "\n" ++ indent ++ "]"
  | .obj fields =>
      if fields.isEmpty then "\x7b\x7d"
      else if gap = "" then
        "\x7b" ++ joinWith "," (serializeMembers gap (indent ++ gap) fields) ++ "\x7d"
      else
        "\x7b\n" ++ (indent ++ gap) ++
          joinWith (",\n" ++ (indent ++ gap)) (serializeMembers gap (indent ++ gap) fields) ++
          "\n" ++ indent ++ "\x7d"
/-- The serialised elements of an array. -/
def serializeElements (gap indent : String) : List JSValue → List String
  | [] => []
  | v :: rest => SerializeJSONProperty gap indent v :: serializeElements gap indent rest
/-- The serialised members of an object: quoted key, colon, a blank when
there is a gap, the value. -/
def serializeMembers (gap indent : String) : List (String × JSValue) → List String
  | [] => []
  | (k, v) :: rest =>
      (QuoteJSONString k ++ ":" ++ (if gap = "" then "" else " ") ++
          SerializeJSONProperty gap indent v)
        :: serializeMembers gap indent rest
end

/-- The gap of `JSON.stringify(value, null, space)`: no `space` argument gives
the empty gap, a number gives that many blanks, at most ten. -/
def gapOfSpace : Option Nat → String
  | none => ""
  | some n => String.mk (List.replicate (min 10 n) (Char.ofNat 32))

/-- `JSON.stringify(value, null, space)` on the values above. -/
def JSON.stringify (value : JSValue) (space : Option Nat) : String :=
  SerializeJSONProperty (gapOfSpace space) "" value

/-! ## The module body of `server.js` -/

/-- `process.env`: the value of each variable, `none` when it is not set. -/
abbrev ProcessEnv := String → Option String

/-- `process.env.X || 'd'` for a string default: the left operand when it is
truthy (a non-empty string), otherwise the default. -/
def envOr (v : Option String) (dflt : String) : String :=
  match v with
  | some s => if s = "" then dflt else s
  | none => dflt

/-- The value of the constant `PORT`: a string taken from the environment or
the number literal. -/
inductive PortValue where
  | str (s : String)
  | num (n : Nat)
  deriving DecidableEq, Repr

/-- JavaScript `ToString` on a port value, as done by a template literal. -/
def PortValue.toString : PortValue → String
  | .str s => s
  | .num n => Nat.repr n

/-- The constants of the module, evaluated once when it is loaded. -/
structure Config where
  PORT : PortValue
  APIKEY : String
  PASSWORD : String
  deriving DecidableEq, Repr

/-- Lines 5 to 8: `PORT`, `APIKEY`, `PASSWORD`. -/
def loadConfig (env : ProcessEnv) : Config where
  PORT := match env "PORT" with
    | some s => if s = "" then .num 3000 else .str s
    | none => .num 3000
  APIKEY := envOr (env "APIkey") "NOT SET"
  PASSWORD := envOr (env "password") "NOT SET"

/-- The expression `X !== 'NOT SET' ? 'loaded' : 'missing'`. -/
def secretStatus (x : String) : String :=
  if x ≠ "NOT SET" then "loaded" else "missing"

/-! ## The request handler -/

/-- What the handler reads of a request. -/
structure Request where
  method : String
  url : String
  deriving DecidableEq, Repr

/-- What the handler writes: `res.writeHead(status, headers)` and
`res.end(body)`. -/
structure Response where
  status : Nat
  headers : List (String × String)
  body : String
  deriving DecidableEq, Repr

/-- The object literal of the `/secrets` branch. -/
def secretsPayload (cfg : Config) (env : ProcessEnv) : JSValue :=
  .obj [
    ("message", .str "Secrets loaded from Infisical via fetch-infisical-env.sh"),
    ("env", .str (envOr (env "APP_ENV") "dev")),
    ("keys", .obj [
      ("APIkey", .str (secretStatus cfg.APIKEY)),
      ("password", .str (secretStatus cfg.PASSWORD))])]

/-- The object literal of the default branch. -/
def infoPayload (env : ProcessEnv) : JSValue :=
  .obj [
    ("app", .str "Test Workflow App"),
    ("env", .str (envOr (env "APP_ENV") "dev")),
    ("gitSha", .str (envOr (env "GIT_SHA") "local")),
    ("routes", .arr [.str "/health", .str "/secrets"])]

/-- The callback of `http.createServer`; `cfg` holds the constants captured
at startup and `env` is `process.env` at the time of the request. -/
def handler (cfg : Config) (env : ProcessEnv) (req : Request) : Response :=
  if req.url = "/health" then
    { status := 200
      headers := [("Content-Type", "application/json")]
      body := JSON.stringify (.obj [("status", .str "ok")]) none }
  else if req.url = "/secrets" then
    { status := 200
      headers := [("Content-Type", "application/json")]
      body := JSON.stringify (secretsPayload cfg env) (some 2) }
  else
    { status := 200
      headers := [("Content-Type", "application/json")]
      body := JSON.stringify (infoPayload env) (some 2) }

/-- A request served by a process started under `startupEnv` whose
`process.env` is `currentEnv` when the request arrives. -/
def serve (startupEnv currentEnv : ProcessEnv) (req : Request) : Response :=
  handler (loadConfig startupEnv) currentEnv req

/-- The lines written by the callback of `server.listen`. -/
def banner (cfg : Config) (env : ProcessEnv) : List String :=
  [ "────────────────────────────────────────",
    "  Server running on port " ++ cfg.PORT.toString,
    "  ENV        : " ++ envOr (env "APP_ENV") "dev",
    "  APIkey     : " ++ secretStatus cfg.APIKEY,
    "  password   : " ++ secretStatus cfg.PASSWORD,
    "────────────────────────────────────────" ]

/-- A `process.env` given by a list of assignments (the first one wins). -/
def envOfList (l : List (String × String)) : ProcessEnv :=
  fun name => (l.find? (fun kv => kv.1 == name)).map Prod.snd

/-- The characters of the string literals of the handler (property names
and constant values) and of the punctuation and indentation written by
`JSON.stringify`. -/
def responseLiteralChars : List Char :=
  ("\x7b\x7d[]\":, \n" ++ "status" ++ "ok" ++ "message" ++
    "Secrets loaded from Infisical via fetch-infisical-env.sh" ++ "env" ++ "keys" ++
    "APIkey" ++ "password" ++ "loaded" ++ "missing" ++ "app" ++ "Test Workflow App" ++
    "gitSha" ++ "routes" ++ "/health" ++ "/secrets").toList


/-! ## Serialisation of the literals of the handler -/

theorem quote_message : QuoteJSONString "message" = "\"message\"" := by decide
theorem quote_message_text :
    QuoteJSONString "Secrets loaded from Infisical via fetch-infisical-env.sh"
      = "\"Secrets loaded from Infisical via fetch-infisical-env.sh\"" := by decide
theorem quote_env : QuoteJSONString "env" = "\"env\"" := by decide
theorem quote_keys : QuoteJSONString "keys" = "\"keys\"" := by decide
theorem quote_APIkey : QuoteJSONString "APIkey" = "\"APIkey\"" := by decide
theorem quote_password : QuoteJSONString "password" = "\"password\"" := by decide
theorem quote_app : QuoteJSONString "app" = "\"app\"" := by decide
theorem quote_app_name : QuoteJSONString "Test Workflow App" = "\"Test Workflow App\"" := by decide
theorem quote_gitSha : QuoteJSONString "gitSha" = "\"gitSha\"" := by decide
theorem quote_routes : QuoteJSONString "routes" = "\"routes\"" := by decide
theorem quote_health : QuoteJSONString "/health" = "\"/health\"" := by decide
theorem quote_secrets : QuoteJSONString "/secrets" = "\"/secrets\"" := by decide

/-- The text of the default body, with the two values read from the
environment left symbolic. -/
theorem stringify_info_text (label sha : String) :
    JSON.stringify (.obj [("app", .str "Test Workflow App"), ("env", .str label),
        ("gitSha", .str sha), ("routes", .arr [.str "/health", .str "/secrets"])]) (some 2)
      = "\x7b\n  \"app\": \"Test Workflow App\",\n  \"env\": " ++ QuoteJSONString label ++
        ",\n  \"gitSha\": " ++ QuoteJSONString sha ++
        ",\n  \"routes\": [\n    \"/health\",\n    \"/secrets\"\n  ]\n\x7d" := by
  apply String.ext
  simp [JSON.stringify, SerializeJSONProperty, serializeMembers, serializeElements,
    joinWith, gapOfSpace, quote_app, quote_app_name, quote_env, quote_gitSha, quote_routes,
    quote_health, quote_secrets]

/-- The text of the `/secrets` body, with the environment label and the two
status words left symbolic. -/
theorem stringify_secrets_text (label a p : String) :
    JSON.stringify (.obj [
        ("message", .str "Secrets loaded from Infisical via fetch-infisical-env.sh"),
        ("env", .str label),
        ("keys", .obj [("APIkey", .str a), ("password", .str p)])]) (some 2)
      = "\x7b\n  \"message\": \"Secrets loaded from Infisical via fetch-infisical-env.sh\"" ++
        ",\n  \"env\": " ++ QuoteJSONString label ++
        ",\n  \"keys\": \x7b\n    \"APIkey\": " ++ QuoteJSONString a ++
        ",\n    \"password\": " ++ QuoteJSONString p ++ "\n  \x7d\n\x7d" := by
  apply String.ext
  simp [JSON.stringify, SerializeJSONProperty, serializeMembers,
    joinWith, gapOfSpace, quote_message, quote_message_text, quote_env, quote_keys,
    quote_APIkey, quote_password]

theorem handler_health (cfg : Config) (env : ProcessEnv) (method : String) :
    handler cfg env ⟨method, "/health"⟩
      = ⟨200, [("Content-Type", "application/json")], "\x7b\"status\":\"ok\"\x7d"⟩ := rfl

theorem handler_secrets (cfg : Config) (env : ProcessEnv) (method : String) :
    handler cfg env ⟨method, "/secrets"⟩
      = ⟨200, [("Content-Type", "application/json")],
          JSON.stringify (secretsPayload cfg env) (some 2)⟩ := rfl

theorem handler_default (cfg : Config) (env : ProcessEnv) (req : Request)
    (h1 : req.url ≠ "/health") (h2 : req.url ≠ "/secrets") :
    handler cfg env req
      = ⟨200, [("Content-Type", "application/json")],
          JSON.stringify (infoPayload env) (some 2)⟩ := by
  simp [handler, h1, h2]

theorem handler_root (cfg : Config) (env : ProcessEnv) (method : String) :
    handler cfg env ⟨method, "/"⟩
      = ⟨200, [("Content-Type", "application/json")],
          JSON.stringify (infoPayload env) (some 2)⟩ := rfl

theorem secretStatus_loaded_iff (x : String) : secretStatus x = "loaded" ↔ x ≠ "NOT SET" := by
  unfold secretStatus
  split <;> simp_all

theorem secretStatus_missing_iff (x : String) : secretStatus x = "missing" ↔ x = "NOT SET" := by
  unfold secretStatus
  split <;> simp_all

theorem envOr_ne_default_iff (v : Option String) (d : String) :
    envOr v d ≠ d ↔ ∃ s, v = some s ∧ s ≠ "" ∧ s ≠ d := by
  unfold envOr
  cases v with
  | none => simp
  | some s =>
    by_cases hs : s = ""
    · simp [hs]
    · simp [hs]

/-! ## The routes -/

/-- C1: whatever the constants captured at startup, the environment and the
method, a request whose URL is exactly `/health` is answered with status 200,
the single header `Content-Type: application/json` and the body
`\x7b"status":"ok"\x7d`, character for character. -/
theorem health_any_method (startupEnv currentEnv : ProcessEnv) (cfg : Config)
    (method : String) :
    handler cfg currentEnv ⟨method, "/health"⟩
        = ⟨200, [("Content-Type", "application/json")], "\x7b\"status\":\"ok\"\x7d"⟩
      ∧ serve startupEnv currentEnv ⟨method, "/health"⟩
        = ⟨200, [("Content-Type", "application/json")], "\x7b\"status\":\"ok\"\x7d"⟩ :=
  ⟨rfl, rfl⟩

/-- C2: a request whose URL is neither `/health` nor `/secrets` is never
answered 404: the status is 200 and the body is `JSON.stringify` with two
blanks of indentation of the object with the keys `app`, `env`, `gitSha`,
`routes` in that order, `app` being the fixed name, `env` the environment
label, `gitSha` the build identifier and `routes` the list `/health`,
`/secrets`; the text of the body is spelled out. -/
theorem default_route_info (cfg : Config) (env : ProcessEnv) (req : Request)
    (h1 : req.url ≠ "/health") (h2 : req.url ≠ "/secrets") :
    (handler cfg env req).status ≠ 404
      ∧ handler cfg env req
        = ⟨200, [("Content-Type", "application/json")],
            JSON.stringify (.obj [("app", .str "Test Workflow App"),
              ("env", .str (envOr (env "APP_ENV") "dev")),
              ("gitSha", .str (envOr (env "GIT_SHA") "local")),
              ("routes", .arr [.str "/health", .str "/secrets"])]) (some 2)⟩
      ∧ (handler cfg env req).body
        = "\x7b\n  \"app\": \"Test Workflow App\",\n  \"env\": " ++
          QuoteJSONString (envOr (env "APP_ENV") "dev") ++
          ",\n  \"gitSha\": " ++ QuoteJSONString (envOr (env "GIT_SHA") "local") ++
          ",\n  \"routes\": [\n    \"/health\",\n    \"/secrets\"\n  ]\n\x7d" := by
  rw [handler_default cfg env req h1 h2]
  refine ⟨by simp, rfl, ?_⟩
  exact stringify_info_text _ _

/-- C2, at the empty path and at `/` with no variable set. -/
theorem default_route_info_witness :
    ((⟨"GET", ""⟩ : Request).url ≠ "/health" ∧ (⟨"GET", ""⟩ : Request).url ≠ "/secrets")
      ∧ (handler (loadConfig (envOfList [])) (envOfList []) ⟨"GET", ""⟩).body
        = "\x7b\n  \"app\": \"Test Workflow App\",\n  \"env\": \"dev\"" ++
          ",\n  \"gitSha\": \"local\"" ++
          ",\n  \"routes\": [\n    \"/health\",\n    \"/secrets\"\n  ]\n\x7d" :=
  ⟨⟨by decide, by decide⟩,
    (default_route_info (loadConfig (envOfList [])) (envOfList []) ⟨"GET", ""⟩
      (by decide) (by decide)).2.2.trans (by decide)⟩

/-! ## The status of the secrets -/

/-- C3, as stated, fails: with `APIkey` set at startup to the empty string
(a value other than `NOT SET`), the `/secrets` response has no `keys.apiKey`
at all, and the status of the first secret, under its real name
`keys.APIkey`, is `missing`, not `loaded`. -/
theorem secrets_empty_value_reported_missing :
    envOfList [("APIkey", "")] "APIkey" = some ""
      ∧ ("" : String) ≠ "NOT SET"
      ∧ (((secretsPayload (loadConfig (envOfList [("APIkey", "")]))
            (envOfList [("APIkey", "")])).get? "keys").bind
          (fun k => k.get? "apiKey")).bind JSValue.asString? = none
      ∧ (((secretsPayload (loadConfig (envOfList [("APIkey", "")]))
            (envOfList [("APIkey", "")])).get? "keys").bind
          (fun k => k.get? "APIkey")).bind JSValue.asString? = some "missing"
      ∧ serve (envOfList [("APIkey", "")]) (envOfList [("APIkey", "")]) ⟨"GET", "/secrets"⟩
        = ⟨200, [("Content-Type", "application/json")],
            "\x7b\n  \"message\": \"Secrets loaded from Infisical via fetch-infisical-env.sh\"" ++
            ",\n  \"env\": \"dev\",\n  \"keys\": \x7b\n    \"APIkey\": \"missing\"" ++
            ",\n    \"password\": \"missing\"\n  \x7d\n\x7d"⟩ := by
  refine ⟨by decide, by decide, by decide, by decide, rfl⟩

/-- C3, amended: a request to `/secrets` returns status 200; the status
reported for the first secret, `keys.APIkey`, is `loaded` exactly when `APIkey`
was set at startup to a non-empty value other than `NOT SET`, and `missing`
otherwise; the same holds for `keys.password` against `password`.  A variable
set to the empty string or to `NOT SET` is reported `missing`. -/
theorem secrets_status_iff (startupEnv currentEnv : ProcessEnv) (method : String) :
    serve startupEnv currentEnv ⟨method, "/secrets"⟩
        = ⟨200, [("Content-Type", "application/json")],
            JSON.stringify (.obj [
              ("message", .str "Secrets loaded from Infisical via fetch-infisical-env.sh"),
              ("env", .str (envOr (currentEnv "APP_ENV") "dev")),
              ("keys", .obj [
                ("APIkey", .str (secretStatus (loadConfig startupEnv).APIKEY)),
                ("password", .str (secretStatus (loadConfig startupEnv).PASSWORD))])])
              (some 2)⟩
      ∧ (secretStatus (loadConfig startupEnv).APIKEY = "loaded"
          ↔ ∃ v, startupEnv "APIkey" = some v ∧ v ≠ "" ∧ v ≠ "NOT SET")
      ∧ (secretStatus (loadConfig startupEnv).APIKEY = "missing"
          ↔ ¬ ∃ v, startupEnv "APIkey" = some v ∧ v ≠ "" ∧ v ≠ "NOT SET")
      ∧ (secretStatus (loadConfig startupEnv).PASSWORD = "loaded"
          ↔ ∃ v, startupEnv "password" = some v ∧ v ≠ "" ∧ v ≠ "NOT SET")
      ∧ (secretStatus (loadConfig startupEnv).PASSWORD = "missing"
          ↔ ¬ ∃ v, startupEnv "password" = some v ∧ v ≠ "" ∧ v ≠ "NOT SET")
      ∧ (startupEnv "APIkey" = some "" → secretStatus (loadConfig startupEnv).APIKEY = "missing")
      ∧ (startupEnv "APIkey" = some "NOT SET" →
          secretStatus (loadConfig startupEnv).APIKEY = "missing") := by
  have hA := envOr_ne_default_iff (startupEnv "APIkey") "NOT SET"
  have hP := envOr_ne_default_iff (startupEnv "password") "NOT SET"
  refine ⟨rfl, ?_, ?_, ?_, ?_, ?_, ?_⟩
  · rw [secretStatus_loaded_iff]; exact hA
  · rw [secretStatus_missing_iff, ← hA]; simp [loadConfig]
  · rw [secretStatus_loaded_iff]; exact hP
  · rw [secretStatus_missing_iff, ← hP]; simp [loadConfig]
  · intro h; rw [secretStatus_missing_iff]; simp [loadConfig, envOr, h]
  · intro h; rw [secretStatus_missing_iff]; simp [loadConfig, envOr, h]

/-- C3 amended, on three startup environments: a real value, the empty
string and the sentinel. -/
theorem secrets_status_iff_witness :
    secretStatus (loadConfig (envOfList [("APIkey", "k-123")])).APIKEY = "loaded"
      ∧ secretStatus (loadConfig (envOfList [("APIkey", "")])).APIKEY = "missing"
      ∧ secretStatus (loadConfig (envOfList [("APIkey", "NOT SET")])).APIKEY = "missing" :=
  ⟨(secrets_status_iff (envOfList [("APIkey", "k-123")]) (envOfList []) "GET").2.1.mpr
      ⟨"k-123", by decide, by decide, by decide⟩,
    (secrets_status_iff (envOfList [("APIkey", "")]) (envOfList []) "GET").2.2.2.2.2.1
      (by decide),
    (secrets_status_iff (envOfList [("APIkey", "NOT SET")]) (envOfList []) "GET").2.2.2.2.2.2
      (by decide)⟩

/-- C4, as stated, fails: the two entries of `keys` in the `/secrets` body
are named `APIkey` and `password`; there is no entry `apiKey`. -/
theorem secrets_keys_names_counterexample :
    ((secretsPayload (loadConfig (envOfList [])) (envOfList [])).get? "keys").map JSValue.keys
        = some ["APIkey", "password"]
      ∧ ((secretsPayload (loadConfig (envOfList [])) (envOfList [])).get? "keys").map JSValue.keys
        ≠ some ["apiKey", "password"]
      ∧ (serve (envOfList []) (envOfList []) ⟨"GET", "/secrets"⟩).body
        = "\x7b\n  \"message\": \"Secrets loaded from Infisical via fetch-infisical-env.sh\"" ++
          ",\n  \"env\": \"dev\",\n  \"keys\": \x7b\n    \"APIkey\": \"missing\"" ++
          ",\n    \"password\": \"missing\"\n  \x7d\n\x7d" := by
  refine ⟨by decide, by decide, rfl⟩

/-- C4, amended: the body of the response to `/secrets` is the two-blank
`JSON.stringify` of an object with exactly the top-level keys `message`, `env`,
`keys` in that order, where `message` is one fixed string, `env` is the
environment label, and `keys` has exactly the two entries `APIkey` and
`password`, each valued `loaded` or `missing`; the text of the body is spelled
out. -/
theorem secrets_body_shape (startupEnv currentEnv : ProcessEnv) (method : String) :
    ∃ a p : String, (a = "loaded" ∨ a = "missing") ∧ (p = "loaded" ∨ p = "missing")
      ∧ a = secretStatus (loadConfig startupEnv).APIKEY
      ∧ p = secretStatus (loadConfig startupEnv).PASSWORD
      ∧ (serve startupEnv currentEnv ⟨method, "/secrets"⟩).body
        = JSON.stringify (.obj [
            ("message", .str "Secrets loaded from Infisical via fetch-infisical-env.sh"),
            ("env", .str (envOr (currentEnv "APP_ENV") "dev")),
            ("keys", .obj [("APIkey", .str a), ("password", .str p)])]) (some 2)
      ∧ (serve startupEnv currentEnv ⟨method, "/secrets"⟩).body
        = "\x7b\n  \"message\": \"Secrets loaded from Infisical via fetch-infisical-env.sh\"" ++
          ",\n  \"env\": " ++ QuoteJSONString (envOr (currentEnv "APP_ENV") "dev") ++
          ",\n  \"keys\": \x7b\n    \"APIkey\": \"" ++ a ++
          "\",\n    \"password\": \"" ++ p ++ "\"\n  \x7d\n\x7d" := by
  refine ⟨secretStatus (loadConfig startupEnv).APIKEY,
    secretStatus (loadConfig startupEnv).PASSWORD, ?_, ?_, rfl, rfl, rfl, ?_⟩
  · unfold secretStatus; split <;> simp
  · unfold secretStatus; split <;> simp
  · show JSON.stringify (secretsPayload (loadConfig startupEnv) currentEnv) (some 2) = _
    unfold secretsPayload
    rw [stringify_secrets_text]
    have hq : ∀ x : String, QuoteJSONString (secretStatus x) = "\"" ++ secretStatus x ++ "\"" := by
      intro x
      unfold secretStatus
      split <;> decide
    rw [hq, hq]
    apply String.ext
    simp [String.data_append]

/-! ## Routing on the request target -/

theorem target_with_query_ne (path query lit : String) (h : (Char.ofNat 63) ∉ lit.data) :
    path ++ "?" ++ query ≠ lit := by
  intro heq
  apply h
  rw [← heq]
  simp [String.data_append]

/-- C7, as stated, fails: the handler compares the whole request target,
query string included, so `/health?x=1` and `/secrets?x=1` get the default
body, not the `/health` body or the `/secrets` body. -/
theorem query_string_not_ignored :
    serve (envOfList []) (envOfList []) ⟨"GET", "/health?x=1"⟩
        ≠ serve (envOfList []) (envOfList []) ⟨"GET", "/health"⟩
      ∧ serve (envOfList []) (envOfList []) ⟨"GET", "/secrets?x=1"⟩
        ≠ serve (envOfList []) (envOfList []) ⟨"GET", "/secrets"⟩
      ∧ (serve (envOfList []) (envOfList []) ⟨"GET", "/health?x=1"⟩).body
        = "\x7b\n  \"app\": \"Test Workflow App\",\n  \"env\": \"dev\"" ++
          ",\n  \"gitSha\": \"local\"" ++
          ",\n  \"routes\": [\n    \"/health\",\n    \"/secrets\"\n  ]\n\x7d"
      ∧ (serve (envOfList []) (envOfList []) ⟨"GET", "/health"⟩).body
        = "\x7b\"status\":\"ok\"\x7d" := by
  refine ⟨by decide, by decide, rfl, rfl⟩

/-- C7, amended: routing compares the whole request target, query string
included, with `/health` and `/secrets`; every target of the form
path + `?` + query gets the default response, which is the response to the
path alone exactly when the path is neither `/health` nor `/secrets`. -/
theorem query_target_gets_default (cfg : Config) (env : ProcessEnv)
    (method path query : String) :
    handler cfg env ⟨method, path ++ "?" ++ query⟩
        = ⟨200, [("Content-Type", "application/json")],
            JSON.stringify (.obj [("app", .str "Test Workflow App"),
              ("env", .str (envOr (env "APP_ENV") "dev")),
              ("gitSha", .str (envOr (env "GIT_SHA") "local")),
              ("routes", .arr [.str "/health", .str "/secrets"])]) (some 2)⟩
      ∧ (path ≠ "/health" → path ≠ "/secrets" →
          handler cfg env ⟨method, path ++ "?" ++ query⟩ = handler cfg env ⟨method, path⟩)
      ∧ (path = "/health" ∨ path = "/secrets" →
          handler cfg env ⟨method, path ++ "?" ++ query⟩ ≠ handler cfg env ⟨method, path⟩) := by
  have hq := handler_default cfg env ⟨method, path ++ "?" ++ query⟩
    (target_with_query_ne path query "/health" (by decide))
    (target_with_query_ne path query "/secrets" (by decide))
  refine ⟨hq, ?_, ?_⟩
  · intro h1 h2
    rw [hq, handler_default cfg env ⟨method, path⟩ h1 h2]
  · intro h
    have hb : (handler cfg env ⟨method, path ++ "?" ++ query⟩).body.data.get? 5
        = some (Char.ofNat 97) := by
      rw [hq]
      show (JSON.stringify (.obj [("app", .str "Test Workflow App"),
              ("env", .str (envOr (env "APP_ENV") "dev")),
              ("gitSha", .str (envOr (env "GIT_SHA") "local")),
              ("routes", .arr [.str "/health", .str "/secrets"])]) (some 2)).data.get? 5 = _
      rw [stringify_info_text]
      rfl
    intro heq
    rw [heq] at hb
    rcases h with h | h
    · subst h
      rw [handler_health] at hb
      exact absurd hb (by decide)
    · subst h
      rw [handler_secrets] at hb
      unfold secretsPayload at hb
      rw [stringify_secrets_text] at hb
      simp [String.data_append] at hb

/-- C7 amended, on `/x?y=1` (same response as `/x`) and on `/health?x=1`
(not the response of `/health`). -/
theorem query_target_gets_default_witness :
    handler (loadConfig (envOfList [])) (envOfList []) ⟨"GET", "/x" ++ "?" ++ "y=1"⟩
        = handler (loadConfig (envOfList [])) (envOfList []) ⟨"GET", "/x"⟩
      ∧ handler (loadConfig (envOfList [])) (envOfList []) ⟨"GET", "/health" ++ "?" ++ "x=1"⟩
        ≠ handler (loadConfig (envOfList [])) (envOfList []) ⟨"GET", "/health"⟩ :=
  ⟨(query_target_gets_default (loadConfig (envOfList [])) (envOfList []) "GET" "/x" "y=1").2.1
      (by decide) (by decide),
    (query_target_gets_default (loadConfig (envOfList [])) (envOfList []) "GET" "/health"
      "x=1").2.2 (Or.inl rfl)⟩

/-! ## The port -/

/-- C9, as stated, fails: with `PORT=abc` the constant `PORT` is the string
`abc`, not the integer 3000, and with `PORT=8080` it is the string `8080`, not
an integer. -/
theorem port_nonnumeric_not_defaulted :
    (loadConfig (envOfList [("PORT", "abc")])).PORT = PortValue.str "abc"
      ∧ (loadConfig (envOfList [("PORT", "abc")])).PORT ≠ PortValue.num 3000
      ∧ (loadConfig (envOfList [("PORT", "8080")])).PORT = PortValue.str "8080"
      ∧ (loadConfig (envOfList [("PORT", "8080")])).PORT ≠ PortValue.num 8080
      ∧ (banner (loadConfig (envOfList [("PORT", "abc")])) (envOfList [("PORT", "abc")])).get? 1
        = some "  Server running on port abc" := by
  refine ⟨by decide, by decide, by decide, by decide, by decide⟩

/-- C9, amended: the value given to `listen` and printed in the banner is
the string value of `PORT` whenever that variable is set to a non-empty string,
numeric or not, and it is the integer 3000 exactly when `PORT` is unset or
empty. -/
theorem port_value (env bannerEnv : ProcessEnv) :
    (∀ s, env "PORT" = some s → s ≠ "" → (loadConfig env).PORT = PortValue.str s)
      ∧ (env "PORT" = none ∨ env "PORT" = some "" → (loadConfig env).PORT = PortValue.num 3000)
      ∧ ((loadConfig env).PORT = PortValue.num 3000 →
          env "PORT" = none ∨ env "PORT" = some "")
      ∧ (banner (loadConfig env) bannerEnv).get? 1
        = some ("  Server running on port " ++ (loadConfig env).PORT.toString) := by
  refine ⟨?_, ?_, ?_, rfl⟩
  · intro s h hs
    simp [loadConfig, h, hs]
  · rintro (h | h) <;> simp [loadConfig, h]
  · intro h
    unfold loadConfig at h
    cases hp : env "PORT" with
    | none => exact Or.inl rfl
    | some s =>
      rw [hp] at h
      by_cases hs : s = ""
      · exact Or.inr (by rw [hs])
      · simp [hs] at h

/-- C9 amended, on `PORT=8080`, `PORT=abc`, `PORT` empty and `PORT` unset. -/
theorem port_value_witness :
    (loadConfig (envOfList [("PORT", "8080")])).PORT = PortValue.str "8080"
      ∧ (loadConfig (envOfList [("PORT", "abc")])).PORT = PortValue.str "abc"
      ∧ (loadConfig (envOfList [("PORT", "")])).PORT = PortValue.num 3000
      ∧ (loadConfig (envOfList [])).PORT = PortValue.num 3000 :=
  ⟨(port_value (envOfList [("PORT", "8080")]) (envOfList [])).1 "8080" (by decide) (by decide),
    (port_value (envOfList [("PORT", "abc")]) (envOfList [])).1 "abc" (by decide) (by decide),
    (port_value (envOfList [("PORT", "")]) (envOfList [])).2.1 (Or.inr (by decide)),
    (port_value (envOfList []) (envOfList [])).2.1 (Or.inl (by decide))⟩

/-! ## The environment label and the build identifier -/

/-- C10, as stated, fails: in a process started with `APP_ENV=staging` and
`GIT_SHA=abc123` whose environment later holds `APP_ENV=prod` and no
`GIT_SHA`, a request to `/` returns `env` `prod` and `gitSha` `local`, not
the values set at startup, and `/secrets` carries `prod` too. -/
theorem startup_label_not_returned_after_change :
    envOfList [("APP_ENV", "staging"), ("GIT_SHA", "abc123")] "APP_ENV" = some "staging"
      ∧ envOfList [("APP_ENV", "staging"), ("GIT_SHA", "abc123")] "GIT_SHA" = some "abc123"
      ∧ (serve (envOfList [("APP_ENV", "staging"), ("GIT_SHA", "abc123")])
          (envOfList [("APP_ENV", "prod")]) ⟨"GET", "/"⟩).body
        = "\x7b\n  \"app\": \"Test Workflow App\",\n  \"env\": \"prod\"" ++
          ",\n  \"gitSha\": \"local\"" ++
          ",\n  \"routes\": [\n    \"/health\",\n    \"/secrets\"\n  ]\n\x7d"
      ∧ (serve (envOfList [("APP_ENV", "staging"), ("GIT_SHA", "abc123")])
          (envOfList [("APP_ENV", "prod")]) ⟨"GET", "/"⟩).body
        ≠ "\x7b\n  \"app\": \"Test Workflow App\",\n  \"env\": \"staging\"" ++
          ",\n  \"gitSha\": \"abc123\"" ++
          ",\n  \"routes\": [\n    \"/health\",\n    \"/secrets\"\n  ]\n\x7d"
      ∧ (serve (envOfList [("APP_ENV", "staging"), ("GIT_SHA", "abc123")])
          (envOfList [("APP_ENV", "prod")]) ⟨"GET", "/secrets"⟩).body
        = "\x7b\n  \"message\": \"Secrets loaded from Infisical via fetch-infisical-env.sh\"" ++
          ",\n  \"env\": \"prod\",\n  \"keys\": \x7b\n    \"APIkey\": \"missing\"" ++
          ",\n    \"password\": \"missing\"\n  \x7d\n\x7d" := by
  refine ⟨by decide, by decide, rfl, by decide, rfl⟩

/-- C10, amended: the `env` and `gitSha` fields of the default response
reflect the process environment at the time of the request, with defaults.
Whatever the environment was at startup, when `APP_ENV` and `GIT_SHA` are
unset at the time of the request, a request to `/` returns `env` `dev` and
`gitSha` `local`; when they then hold non-empty values e and g (the values
set at startup, as long as the environment has not changed since), it returns
`env` equal to e and `gitSha` equal to g, and the `/secrets` response carries
the same `env` value. -/
theorem env_and_gitSha_fields (startupEnv currentEnv : ProcessEnv) (method : String) :
    (currentEnv "APP_ENV" = none → currentEnv "GIT_SHA" = none →
        serve startupEnv currentEnv ⟨method, "/"⟩
          = ⟨200, [("Content-Type", "application/json")],
              JSON.stringify (.obj [("app", .str "Test Workflow App"),
                ("env", .str "dev"), ("gitSha", .str "local"),
                ("routes", .arr [.str "/health", .str "/secrets"])]) (some 2)⟩)
      ∧ (∀ e g : String, e ≠ "" → g ≠ "" →
        currentEnv "APP_ENV" = some e → currentEnv "GIT_SHA" = some g →
        serve startupEnv currentEnv ⟨method, "/"⟩
          = ⟨200, [("Content-Type", "application/json")],
              JSON.stringify (.obj [("app", .str "Test Workflow App"),
                ("env", .str e), ("gitSha", .str g),
                ("routes", .arr [.str "/health", .str "/secrets"])]) (some 2)⟩
        ∧ serve startupEnv currentEnv ⟨method, "/secrets"⟩
          = ⟨200, [("Content-Type", "application/json")],
              JSON.stringify (.obj [
                ("message", .str "Secrets loaded from Infisical via fetch-infisical-env.sh"),
                ("env", .str e),
                ("keys", .obj [
                  ("APIkey", .str (secretStatus (loadConfig startupEnv).APIKEY)),
                  ("password", .str (secretStatus (loadConfig startupEnv).PASSWORD))])])
                (some 2)⟩) := by
  refine ⟨?_, ?_⟩
  · intro ha hg
    show handler (loadConfig startupEnv) currentEnv ⟨method, "/"⟩ = _
    rw [handler_root]
    simp [infoPayload, envOr, ha, hg]
  · intro e g he hg ha hs
    refine ⟨?_, ?_⟩
    · show handler (loadConfig startupEnv) currentEnv ⟨method, "/"⟩ = _
      rw [handler_root]
      simp [infoPayload, envOr, ha, hs, he, hg]
    · show handler (loadConfig startupEnv) currentEnv ⟨method, "/secrets"⟩ = _
      rw [handler_secrets]
      simp [secretsPayload, envOr, ha, he]

/-- C10 amended, with no variable set, and with `APP_ENV=staging`,
`GIT_SHA=abc123` set at startup and unchanged since: the bodies of `/`,
character for character. -/
theorem env_and_gitSha_fields_witness :
    (serve (envOfList []) (envOfList []) ⟨"GET", "/"⟩).body
        = "\x7b\n  \"app\": \"Test Workflow App\",\n  \"env\": \"dev\"" ++
          ",\n  \"gitSha\": \"local\"" ++
          ",\n  \"routes\": [\n    \"/health\",\n    \"/secrets\"\n  ]\n\x7d"
      ∧ (serve (envOfList [("APP_ENV", "staging"), ("GIT_SHA", "abc123")])
          (envOfList [("APP_ENV", "staging"), ("GIT_SHA", "abc123")]) ⟨"GET", "/"⟩).body
        = "\x7b\n  \"app\": \"Test Workflow App\",\n  \"env\": \"staging\"" ++
          ",\n  \"gitSha\": \"abc123\"" ++
          ",\n  \"routes\": [\n    \"/health\",\n    \"/secrets\"\n  ]\n\x7d" :=
  ⟨(congrArg Response.body
      ((env_and_gitSha_fields (envOfList []) (envOfList []) "GET").1
        (by decide) (by decide))).trans rfl,
    (congrArg Response.body
      ((env_and_gitSha_fields (envOfList [("APP_ENV", "staging"), ("GIT_SHA", "abc123")])
        (envOfList [("APP_ENV", "staging"), ("GIT_SHA", "abc123")])
        "GET").2 "staging" "abc123" (by decide) (by decide) (by decide) (by decide)).1).trans
      rfl⟩

/-! ## What is read at startup and what is read at each request -/

theorem handler_env_congr (cfg : Config) (env₁ env₂ : ProcessEnv) (req : Request)
    (happ : env₁ "APP_ENV" = env₂ "APP_ENV") (hsha : env₁ "GIT_SHA" = env₂ "GIT_SHA") :
    handler cfg env₁ req = handler cfg env₂ req := by
  simp [handler, secretsPayload, infoPayload, happ, hsha]

theorem handler_status_congr (cfg₁ cfg₂ : Config) (env : ProcessEnv) (req : Request)
    (hA : secretStatus cfg₁.APIKEY = secretStatus cfg₂.APIKEY)
    (hP : secretStatus cfg₁.PASSWORD = secretStatus cfg₂.PASSWORD) :
    handler cfg₁ env req = handler cfg₂ env req := by
  simp [handler, secretsPayload, hA, hP]

/-- C8, as stated, fails: the handler reads `APP_ENV` and `GIT_SHA` from
`process.env` at each request, so after `APP_ENV` changes from `staging` to
`prod` the responses to `/` and to `/secrets` change. -/
theorem env_label_not_snapshot :
    serve (envOfList [("APP_ENV", "staging")]) (envOfList [("APP_ENV", "prod")]) ⟨"GET", "/"⟩
        ≠ serve (envOfList [("APP_ENV", "staging")]) (envOfList [("APP_ENV", "staging")])
            ⟨"GET", "/"⟩
      ∧ serve (envOfList [("APP_ENV", "staging")]) (envOfList [("APP_ENV", "prod")])
          ⟨"GET", "/secrets"⟩
        ≠ serve (envOfList [("APP_ENV", "staging")]) (envOfList [("APP_ENV", "staging")])
            ⟨"GET", "/secrets"⟩
      ∧ (serve (envOfList [("APP_ENV", "staging")]) (envOfList [("APP_ENV", "prod")])
          ⟨"GET", "/"⟩).body
        = "\x7b\n  \"app\": \"Test Workflow App\",\n  \"env\": \"prod\"" ++
          ",\n  \"gitSha\": \"local\"" ++
          ",\n  \"routes\": [\n    \"/health\",\n    \"/secrets\"\n  ]\n\x7d" := by
  refine ⟨by decide, by decide, rfl⟩

/-- C8, amended: the loaded/missing status of both secrets is a snapshot
taken once at process start: a later change of `APIkey`, `password` or of any
variable other than `APP_ENV` and `GIT_SHA` leaves every response unchanged.
The environment label and the build identifier are read from the process
environment at each request: the responses carry their values of that
moment. -/
theorem secrets_snapshot_label_live (startupEnv currentEnv : ProcessEnv) (req : Request) :
    (∀ laterEnv : ProcessEnv, currentEnv "APP_ENV" = laterEnv "APP_ENV" →
        currentEnv "GIT_SHA" = laterEnv "GIT_SHA" →
        serve startupEnv laterEnv req = serve startupEnv currentEnv req)
      ∧ (serve startupEnv currentEnv ⟨req.method, "/secrets"⟩).body
        = JSON.stringify (.obj [
            ("message", .str "Secrets loaded from Infisical via fetch-infisical-env.sh"),
            ("env", .str (envOr (currentEnv "APP_ENV") "dev")),
            ("keys", .obj [
              ("APIkey", .str (secretStatus (envOr (startupEnv "APIkey") "NOT SET"))),
              ("password", .str (secretStatus (envOr (startupEnv "password") "NOT SET")))])])
            (some 2)
      ∧ (serve startupEnv currentEnv ⟨req.method, "/"⟩).body
        = JSON.stringify (.obj [("app", .str "Test Workflow App"),
            ("env", .str (envOr (currentEnv "APP_ENV") "dev")),
            ("gitSha", .str (envOr (currentEnv "GIT_SHA") "local")),
            ("routes", .arr [.str "/health", .str "/secrets"])]) (some 2) := by
  refine ⟨?_, rfl, rfl⟩
  intro laterEnv happ hsha
  exact handler_env_congr _ _ _ _ happ.symm hsha.symm

/-- C8 amended, on a process started with `APIkey=k-123` in which `APIkey`
is later removed and `password` is later set: `/secrets` answers as before. -/
theorem secrets_snapshot_label_live_witness :
    serve (envOfList [("APIkey", "k-123"), ("APP_ENV", "staging")])
        (envOfList [("password", "pw"), ("APP_ENV", "staging")]) ⟨"GET", "/secrets"⟩
      = serve (envOfList [("APIkey", "k-123"), ("APP_ENV", "staging")])
        (envOfList [("APIkey", "k-123"), ("APP_ENV", "staging")]) ⟨"GET", "/secrets"⟩ :=
  (secrets_snapshot_label_live (envOfList [("APIkey", "k-123"), ("APP_ENV", "staging")])
    (envOfList [("APIkey", "k-123"), ("APP_ENV", "staging")]) ⟨"GET", "/secrets"⟩).1
    (envOfList [("password", "pw"), ("APP_ENV", "staging")]) (by decide) (by decide)

/-- C6: two startup configurations that agree on `PORT`, `APP_ENV` and
`GIT_SHA` and in which each of the two secrets has the same loaded/missing
status give, for every request, identical responses (status, headers and
body), whatever the values of the secrets. -/
theorem secrets_noninterference (env₁ env₂ : ProcessEnv) (req : Request)
    (_hport : env₁ "PORT" = env₂ "PORT")
    (happ : env₁ "APP_ENV" = env₂ "APP_ENV") (hsha : env₁ "GIT_SHA" = env₂ "GIT_SHA")
    (hA : secretStatus (loadConfig env₁).APIKEY = secretStatus (loadConfig env₂).APIKEY)
    (hP : secretStatus (loadConfig env₁).PASSWORD = secretStatus (loadConfig env₂).PASSWORD) :
    serve env₁ env₁ req = serve env₂ env₂ req := by
  unfold serve
  rw [handler_env_congr (loadConfig env₁) env₁ env₂ req happ hsha]
  exact handler_status_congr _ _ _ _ hA hP

/-- C6, on two configurations with different values of both secrets. -/
theorem secrets_noninterference_witness :
    (envOfList [("APIkey", "k-123"), ("password", "hunter2"), ("APP_ENV", "staging")] "APIkey"
        ≠ envOfList [("APIkey", "other"), ("password", "pw"), ("APP_ENV", "staging")] "APIkey")
      ∧ serve (envOfList [("APIkey", "k-123"), ("password", "hunter2"), ("APP_ENV", "staging")])
          (envOfList [("APIkey", "k-123"), ("password", "hunter2"), ("APP_ENV", "staging")])
          ⟨"GET", "/secrets"⟩
        = serve (envOfList [("APIkey", "other"), ("password", "pw"), ("APP_ENV", "staging")])
          (envOfList [("APIkey", "other"), ("password", "pw"), ("APP_ENV", "staging")])
          ⟨"GET", "/secrets"⟩ :=
  ⟨by decide,
    secrets_noninterference
      (envOfList [("APIkey", "k-123"), ("password", "hunter2"), ("APP_ENV", "staging")])
      (envOfList [("APIkey", "other"), ("password", "pw"), ("APP_ENV", "staging")])
      ⟨"GET", "/secrets"⟩ (by decide) (by decide) (by decide) (by decide) (by decide)⟩

/-! ## Raw secret values and the text of the bodies -/

theorem quote_status_chars (x : String) :
    ∀ c ∈ (QuoteJSONString (secretStatus x)).data, c ∈ responseLiteralChars := by
  unfold secretStatus
  split <;> decide

/-- Every character of a body is a character of a literal of the handler, of
the quoted environment label or of the quoted build identifier. -/
theorem body_chars (cfg : Config) (env : ProcessEnv) (req : Request) (c : Char)
    (h : c ∈ (handler cfg env req).body.data) :
    c ∈ responseLiteralChars
      ∨ c ∈ (QuoteJSONString (envOr (env "APP_ENV") "dev")).data
      ∨ c ∈ (QuoteJSONString (envOr (env "GIT_SHA") "local")).data := by
  unfold handler at h
  split_ifs at h
  · left
    have hall : ∀ c ∈ ("\x7b\"status\":\"ok\"\x7d" : String).data, c ∈ responseLiteralChars := by
      decide
    exact hall c h
  · have h1 : ∀ c ∈ ("\x7b\n  \"message\": \"Secrets loaded from Infisical via fetch-infisical-env.sh\""
        : String).data, c ∈ responseLiteralChars := by decide
    have h2 : ∀ c ∈ (",\n  \"env\": " : String).data, c ∈ responseLiteralChars := by decide
    have h3 : ∀ c ∈ (",\n  \"keys\": \x7b\n    \"APIkey\": " : String).data,
        c ∈ responseLiteralChars := by decide
    have h4 : ∀ c ∈ (",\n    \"password\": " : String).data, c ∈ responseLiteralChars := by
      decide
    have h5 : ∀ c ∈ ("\n  \x7d\n\x7d" : String).data, c ∈ responseLiteralChars := by decide
    have hb : c ∈ (JSON.stringify (secretsPayload cfg env) (some 2)).data := h
    unfold secretsPayload at hb
    rw [stringify_secrets_text] at hb
    simp only [String.data_append, List.mem_append] at hb
    rcases hb with (((((((hb | hb) | hb) | hb) | hb) | hb) | hb) | hb)
    · exact Or.inl (h1 c hb)
    · exact Or.inl (h2 c hb)
    · exact Or.inr (Or.inl hb)
    · exact Or.inl (h3 c hb)
    · exact Or.inl (quote_status_chars _ c hb)
    · exact Or.inl (h4 c hb)
    · exact Or.inl (quote_status_chars _ c hb)
    · exact Or.inl (h5 c hb)
  · have h1 : ∀ c ∈ ("\x7b\n  \"app\": \"Test Workflow App\",\n  \"env\": " : String).data,
        c ∈ responseLiteralChars := by decide
    have h2 : ∀ c ∈ (",\n  \"gitSha\": " : String).data, c ∈ responseLiteralChars := by decide
    have h3 : ∀ c ∈ (",\n  \"routes\": [\n    \"/health\",\n    \"/secrets\"\n  ]\n\x7d"
        : String).data, c ∈ responseLiteralChars := by decide
    have hb : c ∈ (JSON.stringify (infoPayload env) (some 2)).data := h
    unfold infoPayload at hb
    rw [stringify_info_text] at hb
    simp only [String.data_append, List.mem_append] at hb
    rcases hb with ((((hb | hb) | hb) | hb) | hb)
    · exact Or.inl (h1 c hb)
    · exact Or.inr (Or.inl hb)
    · exact Or.inl (h2 c hb)
    · exact Or.inr (Or.inr hb)
    · exact Or.inl (h3 c hb)

/-- C5, as stated, fails: with `APIkey=ok` the raw value `ok` is a substring
of the `/health` body, and with `password=loaded` and `APIkey` set the raw
value `loaded` is a substring of the `/secrets` body. -/
theorem secret_value_can_occur_in_body :
    envOfList [("APIkey", "ok")] "APIkey" = some "ok"
      ∧ ("ok" : String) ≠ ""
      ∧ ("ok" : String).toList <:+:
          (serve (envOfList [("APIkey", "ok")]) (envOfList [("APIkey", "ok")])
            ⟨"GET", "/health"⟩).body.toList
      ∧ envOfList [("APIkey", "k-123"), ("password", "loaded")] "password" = some "loaded"
      ∧ ("loaded" : String).toList <:+:
          (serve (envOfList [("APIkey", "k-123"), ("password", "loaded")])
            (envOfList [("APIkey", "k-123"), ("password", "loaded")])
            ⟨"GET", "/secrets"⟩).body.toList := by
  refine ⟨by decide, by decide, ?_, by decide, ?_⟩
  · exact ⟨"\x7b\"status\":\"".toList, "\"\x7d".toList, rfl⟩
  · exact ⟨("\x7b\n  \"message\": \"Secrets loaded from Infisical via fetch-infisical-env.sh\"" ++
        ",\n  \"env\": \"dev\",\n  \"keys\": \x7b\n    \"APIkey\": \"").toList,
      "\",\n    \"password\": \"loaded\"\n  \x7d\n\x7d".toList, rfl⟩

theorem quote_status (x : String) :
    QuoteJSONString (secretStatus x) = "\"" ++ secretStatus x ++ "\"" := by
  unfold secretStatus
  split <;> decide

theorem body_health (cfg : Config) (env : ProcessEnv) (req : Request)
    (h : req.url = "/health") :
    (handler cfg env req).body = "\x7b\"status\":\"ok\"\x7d" := by
  simp only [handler, h, if_true]
  rfl

theorem body_secrets (cfg : Config) (env : ProcessEnv) (req : Request)
    (h : req.url = "/secrets") :
    (handler cfg env req).body
      = "\x7b\n  \"message\": \"Secrets loaded from Infisical via fetch-infisical-env.sh\"" ++
        ",\n  \"env\": " ++ QuoteJSONString (envOr (env "APP_ENV") "dev") ++
        ",\n  \"keys\": \x7b\n    \"APIkey\": \"" ++ secretStatus cfg.APIKEY ++
        "\",\n    \"password\": \"" ++ secretStatus cfg.PASSWORD ++ "\"\n  \x7d\n\x7d" := by
  have h1 : req.url ≠ "/health" := by rw [h]; decide
  simp only [handler, h1, h, if_true, if_false]
  unfold secretsPayload
  rw [stringify_secrets_text, quote_status, quote_status]
  apply String.ext
  simp [String.data_append]

theorem body_default (cfg : Config) (env : ProcessEnv) (req : Request)
    (h1 : req.url ≠ "/health") (h2 : req.url ≠ "/secrets") :
    (handler cfg env req).body
      = "\x7b\n  \"app\": \"Test Workflow App\",\n  \"env\": " ++
        QuoteJSONString (envOr (env "APP_ENV") "dev") ++
        ",\n  \"gitSha\": " ++ QuoteJSONString (envOr (env "GIT_SHA") "local") ++
        ",\n  \"routes\": [\n    \"/health\",\n    \"/secrets\"\n  ]\n\x7d" := by
  rw [handler_default cfg env req h1 h2]
  exact stringify_info_text _ _

/-- C5, amended: the raw secret values are never written into a response.
For every startup configuration, every request and every non-empty raw value s
of `APIkey` or `password` (which is then the constant `APIKEY` or `PASSWORD`),
s occurs as a substring of the response body if and only if it is a substring
of the text the route has whatever the secret values are: the text
`\x7b"status":"ok"\x7d` for `/health`; for `/secrets` the fixed text with the
JSON-quoted environment label and the two words loaded/missing filled in; for
any other target the fixed text with the JSON-quoted environment label and
build identifier filled in.  In particular a raw value with a character that
occurs neither in the literals of the handler nor in the quoted label or build
identifier occurs in no body. -/
theorem raw_secret_occurs_only_in_route_text (startupEnv currentEnv : ProcessEnv)
    (req : Request) (s : String)
    (hs : startupEnv "APIkey" = some s ∨ startupEnv "password" = some s) (hne : s ≠ "") :
    (s = (loadConfig startupEnv).APIKEY ∨ s = (loadConfig startupEnv).PASSWORD)
      ∧ (req.url = "/health" →
          (s.toList <:+: (serve startupEnv currentEnv req).body.toList
            ↔ s.toList <:+: ("\x7b\"status\":\"ok\"\x7d" : String).toList))
      ∧ (req.url = "/secrets" →
          (s.toList <:+: (serve startupEnv currentEnv req).body.toList
            ↔ s.toList <:+:
              ("\x7b\n  \"message\": \"Secrets loaded from Infisical via fetch-infisical-env.sh\"" ++
                ",\n  \"env\": " ++ QuoteJSONString (envOr (currentEnv "APP_ENV") "dev") ++
                ",\n  \"keys\": \x7b\n    \"APIkey\": \"" ++
                secretStatus (loadConfig startupEnv).APIKEY ++
                "\",\n    \"password\": \"" ++
                secretStatus (loadConfig startupEnv).PASSWORD ++ "\"\n  \x7d\n\x7d").toList))
      ∧ (req.url ≠ "/health" → req.url ≠ "/secrets" →
          (s.toList <:+: (serve startupEnv currentEnv req).body.toList
            ↔ s.toList <:+:
              ("\x7b\n  \"app\": \"Test Workflow App\",\n  \"env\": " ++
                QuoteJSONString (envOr (currentEnv "APP_ENV") "dev") ++
                ",\n  \"gitSha\": " ++ QuoteJSONString (envOr (currentEnv "GIT_SHA") "local") ++
                ",\n  \"routes\": [\n    \"/health\",\n    \"/secrets\"\n  ]\n\x7d").toList))
      ∧ (∀ c ∈ s.toList, c ∉ responseLiteralChars →
          c ∉ (QuoteJSONString (envOr (currentEnv "APP_ENV") "dev")).toList →
          c ∉ (QuoteJSONString (envOr (currentEnv "GIT_SHA") "local")).toList →
          ¬ s.toList <:+: (serve startupEnv currentEnv req).body.toList) := by
  refine ⟨?_, ?_, ?_, ?_, ?_⟩
  · rcases hs with h | h
    · left; simp [loadConfig, envOr, h, hne]
    · right; simp [loadConfig, envOr, h, hne]
  · intro h
    unfold serve
    rw [body_health _ _ _ h]
  · intro h
    unfold serve
    rw [body_secrets _ _ _ h]
  · intro h1 h2
    unfold serve
    rw [body_default _ _ _ h1 h2]
  · intro c hc hlit hlabel hsha hinf
    have hmem : c ∈ (handler (loadConfig startupEnv) currentEnv req).body.data :=
      hinf.subset hc
    rcases body_chars _ _ _ _ hmem with h | h | h
    · exact hlit h
    · exact hlabel h
    · exact hsha h

set_option maxRecDepth 100000

/-- C5 amended, on a process started with `APIkey=hunter` and
`password=letmein`: neither raw value occurs in the `/secrets` body, and
`hunter` does not occur in the body of `/`. -/
theorem raw_secret_occurs_only_in_route_text_witness :
    ¬ ("hunter" : String).toList <:+:
        (serve (envOfList [("APIkey", "hunter"), ("password", "letmein")])
          (envOfList [("APIkey", "hunter"), ("password", "letmein")])
          ⟨"GET", "/secrets"⟩).body.toList
      ∧ ¬ ("letmein" : String).toList <:+:
        (serve (envOfList [("APIkey", "hunter"), ("password", "letmein")])
          (envOfList [("APIkey", "hunter"), ("password", "letmein")])
          ⟨"GET", "/secrets"⟩).body.toList
      ∧ ¬ ("hunter" : String).toList <:+:
        (serve (envOfList [("APIkey", "hunter"), ("password", "letmein")])
          (envOfList [("APIkey", "hunter"), ("password", "letmein")])
          ⟨"GET", "/"⟩).body.toList :=
  ⟨fun h => absurd
      (((raw_secret_occurs_only_in_route_text
        (envOfList [("APIkey", "hunter"), ("password", "letmein")])
        (envOfList [("APIkey", "hunter"), ("password", "letmein")])
        ⟨"GET", "/secrets"⟩ "hunter" (Or.inl (by decide)) (by decide)).2.2.1 rfl).mp h)
      (by decide),
    fun h => absurd
      (((raw_secret_occurs_only_in_route_text
        (envOfList [("APIkey", "hunter"), ("password", "letmein")])
        (envOfList [("APIkey", "hunter"), ("password", "letmein")])
        ⟨"GET", "/secrets"⟩ "letmein" (Or.inr (by decide)) (by decide)).2.2.1 rfl).mp h)
      (by decide),
    fun h => absurd
      (((raw_secret_occurs_only_in_route_text
        (envOfList [("APIkey", "hunter"), ("password", "letmein")])
        (envOfList [("APIkey", "hunter"), ("password", "letmein")])
        ⟨"GET", "/"⟩ "hunter" (Or.inl (by decide)) (by decide)).2.2.2.1
          (by decide) (by decide)).mp h)
      (by decide)⟩

end AwsSecretEnv
